import Mathlib

/-!
Verification of the alertlib dispatch engine (`alertlib/__init__.py`).

The Python source is shallowly embedded: the `Alert` class becomes a
structure, Python strings become Lean `String` (operated on through their
`List Char` data), `time.time()` becomes an explicit `now : Int` argument,
the module-level globals (`_TEST_MODE`, `hipchat_token`,
`hostedgraphite_api_key`) become explicit parameters, and each dispatcher
returns the updated `Alert` together with a trace of the external effects
(network calls, OS calls, log records, sleeps) it would perform.  Fallible
code returns `Except`.  Python floats in `send_to_graphite` are modelled as
exact rationals (`Rat`); Python's unbounded ints as `Int`.
-/

namespace Alertlib

/-- Python's `str.endswith`, on the character data of the strings. -/
def pyEndsWith (x suffix : String) : Bool :=
  suffix.data.isSuffixOf x.data

/-- Python's `c in s` membership test for a single character. -/
def pyContains (x : String) (c : Char) : Bool :=
  x.data.any (fun d => d == c)

/-- The `Alert` class.  `severity` holds a Python `logging` level
(DEBUG = 10, INFO = 20, WARNING = 30, ERROR = 40, CRITICAL = 50, but any
integer is allowed, as in the source).  `last_sent` is the instance's
per-backend timestamp dictionary, modelled as an association list. -/
structure Alert where
  message : String
  summary : Option String
  severity : Int
  html : Bool
  rate_limit : Option Int
  last_sent : List (String × Int)
deriving Repr, DecidableEq

/-- `Alert._passed_rate_limit`.  Python's `if not self.rate_limit` is true
both for `None` and for a zero value, so a zero `rate_limit` short-circuits
to `True` without touching `last_sent`.  A missing `last_sent` entry
defaults to `-1000000` (`self.last_sent.get(service_name, -1000000)`).
Returns the boolean result together with the (possibly updated) alert. -/
def passedRateLimit (a : Alert) (service : String) (now : Int) : Bool × Alert :=
  match a.rate_limit with
  | none => (true, a)
  | some r =>
    if r = 0 then (true, a)
    else if now - ((a.last_sent.lookup service).getD (-1000000)) > r then
      (true, { a with
        last_sent := (service, now) :: a.last_sent.filter (fun p => p.1 ≠ service) })
    else (false, a)

/-- `Alert._LOG_PRIORITY_TO_COLOR` (hipchat severity-to-color table). -/
def LOG_PRIORITY_TO_COLOR : Int → Option String := fun sev =>
  if sev = 10 then some "gray"
  else if sev = 20 then some "purple"
  else if sev = 30 then some "yellow"
  else if sev = 40 then some "red"
  else if sev = 50 then some "red"
  else none

/-- The local `log_priority_to_prefix` table of `Alert._get_summary`. -/
def logPriorityToPrefixTable : Int → Option String := fun sev =>
  if sev = 10 then some "(debug info) "
  else if sev = 20 then some ""
  else if sev = 30 then some "WARNING: "
  else if sev = 40 then some "ERROR: "
  else if sev = 50 then some "**CRITICAL ERROR**: "
  else none

/-- `Alert._LOG_TO_SYSLOG`, with the numeric values of the `syslog`
constants (LOG_DEBUG = 7, LOG_INFO = 6, LOG_WARNING = 4, LOG_ERR = 3,
LOG_CRIT = 2). -/
def LOG_TO_SYSLOG : Int → Option Int := fun sev =>
  if sev = 10 then some 7
  else if sev = 20 then some 6
  else if sev = 30 then some 4
  else if sev = 40 then some 3
  else if sev = 50 then some 2
  else none

/-- `Alert._mapped_severity`: `severity_map.get(self.severity,
severity_map[logging.INFO])`.  A `KeyError` on a table with no INFO entry
is modelled by the `none` result. -/
def mappedSeverity (table : Int → Option α) (sev : Int) : Option α :=
  match table sev with
  | some v => some v
  | none => table 20

/-- The prefix actually prepended by `_get_summary`:
`log_priority_to_prefix.get(self.severity, "")`. -/
def severityPrefix (sev : Int) : String :=
  (logPriorityToPrefixTable sev).getD ""

/-- The line-break characters of Python 2 `unicode.splitlines`. -/
def isLineBreak (c : Char) : Bool :=
  c = '\n' || c = '\r' || c = '\x0b' || c = '\x0c' || c = '\x1c' ||
  c = '\x1d' || c = '\x1e' || c = '\x85' || c = '\u2028' || c = '\u2029'

/-- `self.message.splitlines()[0]` for a non-empty message: the prefix up
to (excluding) the first line-break character. -/
def firstLine (s : String) : String :=
  ⟨s.data.takeWhile (fun c => !isLineBreak c)⟩

/-- `Alert._get_summary`: the explicit summary if supplied; `''` for an
empty message or an html alert; otherwise first line, sliced to 60
characters (`[:60]`), sliced at the first `'.'` when one is present
(`summary[:summary.find('.')]`), with the severity prefix prepended. -/
def getSummary (a : Alert) : String :=
  match a.summary with
  | some s => s
  | none =>
    if a.message = "" then ""
    else if a.html then ""
    else
      let s1 := (firstLine a.message).data.take 60
      let s2 := if s1.any (fun c => c == '.')
                then s1.take (s1.findIdx (fun c => c == '.'))
                else s1
      severityPrefix a.severity ++ ⟨s2⟩

/-! ### Helper lemmas -/

theorem take_findIdx_eq_takeWhile (p : Char → Bool) (l : List Char) :
    l.take (l.findIdx p) = l.takeWhile (fun c => !p c) := by
  induction l with
  | nil => rfl
  | cons c t ih =>
    by_cases h : p c
    · simp [List.findIdx_cons, List.takeWhile_cons, h]
    · simp [List.findIdx_cons, List.takeWhile_cons, h, ih]

theorem takeWhile_of_not_any (p : Char → Bool) (l : List Char)
    (h : l.any p = false) : l.takeWhile (fun c => !p c) = l := by
  induction l with
  | nil => rfl
  | cons c t ih =>
    simp only [List.any_cons, Bool.or_eq_false_iff] at h
    simp [List.takeWhile_cons, h.1, ih h.2]

theorem dot_slice_eq_takeWhile (l : List Char) :
    (if l.any (fun c => c == '.')
     then l.take (l.findIdx (fun c => c == '.'))
     else l) = l.takeWhile (fun c => !(c == '.')) := by
  by_cases h : l.any (fun c => c == '.') = true
  · simp [h, take_findIdx_eq_takeWhile]
  · simp only [Bool.not_eq_true] at h
    simp [h, takeWhile_of_not_any _ _ h]

/-! ### Claim C1 (rate limiter) -/

/-- A concrete alert whose `rate_limit` is set to `0`. -/
def alertRLZero : Alert :=
  { message := "m", summary := none, severity := 20, html := false,
    rate_limit := some 0, last_sent := [] }

/-- C1 counterexample: with `rate_limit` set to `0`, the elapsed time
(`5 - (-1000000)`) strictly exceeds the window, so the claim requires the
check to set `last_sent["hipchat"] = 5`; the code returns true but leaves
`last_sent` empty, because `if not self.rate_limit` treats a zero
`rate_limit` like an unset one. -/
theorem c1_counterexample :
    alertRLZero.rate_limit = some 0 ∧
    (5 : Int) - ((alertRLZero.last_sent.lookup "hipchat").getD (-1000000)) > 0 ∧
    (passedRateLimit alertRLZero "hipchat" 5).1 = true ∧
    (passedRateLimit alertRLZero "hipchat" 5).2.last_sent.lookup "hipchat" = none := by
  decide

/-- C1 (amended): if `rate_limit` is unset the check returns true without
touching state; a `rate_limit` of zero behaves identically (Python
truthiness); for a nonzero `rate_limit = R`, the check returns true and
sets `last_sent[service] = now` exactly when `now` minus the stored
timestamp (a missing entry counting as `-1000000`) strictly exceeds `R`,
and otherwise returns false leaving the alert unchanged. -/
theorem c1_rate_limit (a : Alert) (s : String) (now : Int) :
    (a.rate_limit = none → passedRateLimit a s now = (true, a)) ∧
    (a.rate_limit = some 0 → passedRateLimit a s now = (true, a)) ∧
    (∀ r : Int, a.rate_limit = some r → r ≠ 0 →
      (now - ((a.last_sent.lookup s).getD (-1000000)) > r →
        (passedRateLimit a s now).1 = true ∧
        (passedRateLimit a s now).2.last_sent.lookup s = some now) ∧
      (¬ (now - ((a.last_sent.lookup s).getD (-1000000)) > r) →
        passedRateLimit a s now = (false, a))) := by
  refine ⟨fun h => ?_, fun h => ?_, fun r hr hr0 => ⟨fun helapsed => ?_, fun helapsed => ?_⟩⟩
  · simp [passedRateLimit, h]
  · simp [passedRateLimit, h]
  · simp [passedRateLimit, hr, hr0, helapsed, List.lookup]
  · simp [passedRateLimit, hr, hr0, helapsed]

/-- A concrete alert with a nonzero rate limit and no previous send. -/
def alertRLTen : Alert :=
  { message := "m", summary := none, severity := 20, html := false,
    rate_limit := some 10, last_sent := [] }

/-- Witness for `c1_rate_limit` at a concrete alert: `rate_limit = 10`,
no previous send, `now = 5`; the elapsed time `5 - (-1000000)` exceeds 10,
so the check passes and records the timestamp. -/
theorem c1_rate_limit_witness :
    (passedRateLimit alertRLTen "email" 5).1 = true ∧
    (passedRateLimit alertRLTen "email" 5).2.last_sent.lookup "email" = some 5 :=
  (c1_rate_limit alertRLTen "email" 5).2.2 10 rfl (by decide) |>.1 (by decide)

/-! ### Claim C3 (severity fallback) -/

/-- C3: for every severity level missing from the table, the severity
lookup returns the table's INFO-level value, for each of the three
required mappings: the chat color table, the summary-prefix table (whose
literal `""` default coincides with its INFO entry), and the
syslog-priority table. -/
theorem c3_severity_fallback (sev : Int) :
    (LOG_PRIORITY_TO_COLOR sev = none →
      mappedSeverity LOG_PRIORITY_TO_COLOR sev = LOG_PRIORITY_TO_COLOR 20 ∧
      LOG_PRIORITY_TO_COLOR 20 = some "purple") ∧
    (logPriorityToPrefixTable sev = none →
      some (severityPrefix sev) = logPriorityToPrefixTable 20) ∧
    (LOG_TO_SYSLOG sev = none →
      mappedSeverity LOG_TO_SYSLOG sev = LOG_TO_SYSLOG 20 ∧
      LOG_TO_SYSLOG 20 = some 6) := by
  refine ⟨fun h => ⟨?_, rfl⟩, fun h => ?_, fun h => ⟨?_, rfl⟩⟩
  · simp [mappedSeverity, h]
  · simp only [severityPrefix, h]
    rfl
  · simp [mappedSeverity, h]

/-- Witness for `c3_severity_fallback` at level 25, which has no entry in
any of the three tables. -/
theorem c3_severity_fallback_witness :
    mappedSeverity LOG_PRIORITY_TO_COLOR 25 = LOG_PRIORITY_TO_COLOR 20 ∧
    some (severityPrefix 25) = logPriorityToPrefixTable 20 ∧
    mappedSeverity LOG_TO_SYSLOG 25 = LOG_TO_SYSLOG 20 :=
  ⟨((c3_severity_fallback 25).1 (by decide)).1,
   (c3_severity_fallback 25).2.1 (by decide),
   ((c3_severity_fallback 25).2.2 (by decide)).1⟩

/-! ### Claim C4 (summary derivation) -/

/-- C4: summary derivation returns an explicitly supplied summary
unchanged; returns empty text when the message is empty or the alert is
html; and otherwise prepends the severity prefix to the first line of the
message truncated to 60 characters and then truncated at the first literal
`'.'` occurring in that prefix — in exactly that order (line-split, then
length-cap, then sentence-cap, then prefix). -/
theorem c4_summary (a : Alert) :
    (∀ s, a.summary = some s → getSummary a = s) ∧
    (a.summary = none → (a.message = "" ∨ a.html = true) → getSummary a = "") ∧
    (a.summary = none → a.message ≠ "" → a.html = false →
      getSummary a = severityPrefix a.severity ++
        ⟨((a.message.data.takeWhile (fun c => !isLineBreak c)).take 60).takeWhile
          (fun c => !(c == '.'))⟩) := by
  refine ⟨fun s hs => ?_, fun hn hcase => ?_, fun hn hm hh => ?_⟩
  · simp [getSummary, hs]
  · rcases hcase with h | h <;> simp [getSummary, hn, h]
  · simp only [getSummary, hn, hm, hh, if_false, ite_false, firstLine]
    rw [dot_slice_eq_takeWhile]
    simp

/-- A concrete non-html alert with no explicit summary and a two-line
message containing a sentence break. -/
def alertDisk : Alert :=
  { message := "disk full. details follow\nsecond line", summary := none,
    severity := 40, html := false, rate_limit := none, last_sent := [] }

/-- Witness for `c4_summary` on a concrete non-html alert with no explicit
summary: the first line of the message is truncated at the first `'.'` and
the ERROR prefix is prepended. -/
theorem c4_summary_witness :
    getSummary alertDisk = "ERROR: disk full" :=
  ((c4_summary alertDisk).2.2 rfl (by decide) rfl).trans (by decide)

/-! ### Effect traces and the hipchat dispatcher -/

/-- An external effect a dispatcher performs: a network call, an OS-level
call (syslog), a record written to the process log (`logRec 20/30/40` for
`logging.info/warning/error`, or the alert's own severity for
`logging.log`), or a `time.sleep`. -/
inductive Action where
  | netCall (backend : String) (payload : String)
  | osCall (facility : String) (priority : Int) (text : String)
  | logRec (level : Int) (text : String)
  | sleep (seconds : Nat)
deriving Repr, DecidableEq

/-- Is this action a process-log record? -/
def Action.isLog : Action → Bool
  | .logRec _ _ => true
  | _ => false

/-- Number of process-log records in a trace. -/
def countLogs (acts : List Action) : Nat :=
  (acts.filter Action.isLog).length

/-- Every action in the trace is a process-log record (in particular there
is no network call, no OS call and no sleep). -/
def allLogs (acts : List Action) : Bool :=
  acts.all Action.isLog

/-- Python truthiness of the `summary` attribute (`if self.summary:`):
false for `None` and for the empty string. -/
def pyTruthySummary : Option String → Bool
  | none => false
  | some s => !(s == "")

/-- `_nix_bad_emoticons`: replace every occurrence of `"8)"` by
`a zero-width-space variant of "8)"` (zero-width space inserted), left to right. -/
def nixChars : List Char → List Char
  | [] => []
  | '8' :: ')' :: rest => '8' :: '\u200b' :: ')' :: nixChars rest
  | c :: rest => c :: nixChars rest

/-- `_nix_bad_emoticons` on a string. -/
def nixStr (s : String) : String := ⟨nixChars s.data⟩

/-- Rendering of the post dict handed to the hipchat API
(room_id, from, message, message_format, notify, color). -/
def renderPost (room sndr msg fmt : String) (notify : Int) (color : String) : String :=
  room ++ "|" ++ sndr ++ "|" ++ msg ++ "|" ++ fmt ++ "|" ++ toString notify ++ "|" ++ color

/-- `Alert._post_to_hipchat`: with no token, a warning is logged and
nothing is sent; otherwise the API call is made, and if it raises
(`apiFails`), the exception is caught and an error is logged. -/
def postToHipchat (token : Option String) (apiFails : Bool) (payload : String) : List Action :=
  match token with
  | none => [.logRec 30 ("Not sending this to hipchat (no token found): " ++ payload)]
  | some _ =>
    if apiFails then
      [.netCall "hipchat" payload,
       .logRec 40 ("Failed sending " ++ payload ++ " to hipchat")]
    else [.netCall "hipchat" payload]

/-- `color = self._mapped_severity(self._LOG_PRIORITY_TO_COLOR)` when no
color is supplied.  The color table has an INFO entry, so the `getD`
default is unreachable. -/
def hipchatColor (a : Alert) (color : Option String) : String :=
  match color with
  | some c => c
  | none => (mappedSeverity LOG_PRIORITY_TO_COLOR a.severity).getD "purple"

/-- `notify = (self.severity == logging.CRITICAL)` when not supplied. -/
def hipchatNotify (a : Alert) (notify : Option Bool) : Bool :=
  match notify with
  | some n => n
  | none => a.severity == 50

/-- The `if self.summary:` block of `send_to_hipchat`: a preliminary
message holding the explicit summary, followed by a 1-second sleep — or
just a log record in test mode.  An alert without a truthy explicit
summary contributes nothing here. -/
def hipchatSummaryActs (a : Alert) (room sndr col : String) (testMode : Bool)
    (token : Option String) (sumFails : Bool) : List Action :=
  match a.summary with
  | none => []
  | some s =>
    if s = "" then []
    else if testMode then
      [.logRec 20 ("alertlib: would send to hipchat room " ++ room ++ ": " ++ s)]
    else
      postToHipchat token sumFails (renderPost room sndr (nixStr s) "text" 0 col)
        ++ [.sleep 1]

/-- The main-message part of `send_to_hipchat`: the message truncated to
9000 characters, html sent verbatim as html, text run through
`_nix_bad_emoticons` — or just a log record in test mode. -/
def hipchatBodyActs (a : Alert) (room sndr col : String) (notifyB testMode : Bool)
    (token : Option String) (msgFails : Bool) : List Action :=
  let message : String := ⟨a.message.data.take 9000⟩
  if testMode then
    [.logRec 20 ("alertlib: would send to hipchat room " ++ room ++ ": " ++ message)]
  else
    postToHipchat token msgFails
      (renderPost room sndr (if a.html then message else nixStr message)
        (if a.html then "html" else "text") (if notifyB then 1 else 0) col)

/-- `Alert.send_to_hipchat`: rate-limit gate on `"hipchat"`, then the
summary block, then the main message.  `sumFails`/`msgFails` say whether
the corresponding API call raises. -/
def sendToHipchat (a : Alert) (room : String) (color : Option String)
    (notify : Option Bool) (sndr : String) (now : Int) (testMode : Bool)
    (token : Option String) (sumFails msgFails : Bool) : Alert × List Action :=
  let gate := passedRateLimit a "hipchat" now
  if !gate.1 then (gate.2, [])
  else
    let col := hipchatColor gate.2 color
    let ntf := hipchatNotify gate.2 notify
    (gate.2,
      hipchatSummaryActs gate.2 room sndr col testMode token sumFails
        ++ hipchatBodyActs gate.2 room sndr col ntf testMode token msgFails)

/-! ### Claim C6 (preliminary summary message) -/

/-- A concrete alert with no explicit summary whose derived summary is
non-empty. -/
def alertHello : Alert :=
  { message := "hello world", summary := none, severity := 20, html := false,
    rate_limit := none, last_sent := [] }

/-- C6 counterexample: this alert has no explicit summary, its derived
summary `"hello world"` is non-empty, test mode is off, a token is
configured — yet `send_to_hipchat` performs exactly one action (the main
message post): no separate preliminary summary message and no pause,
because the code gates the preliminary send on the explicit `self.summary`
attribute, not on the derived summary. -/
theorem c6_counterexample :
    alertHello.summary = none ∧
    getSummary alertHello = "hello world" ∧
    (sendToHipchat alertHello "room" none none "AlertiGator" 0 false
        (some "tok") false false).2.length = 1 ∧
    (sendToHipchat alertHello "room" none none "AlertiGator" 0 false
        (some "tok") false false).2.all (fun act => !(act == Action.sleep 1)) = true := by
  decide

/-- C6 (amended): outside simulation mode, `send_to_hipchat` sends a
separate preliminary message — the explicit summary, then a fixed 1-second
pause — exactly when the explicitly supplied `summary` attribute is truthy
(non-`None` and non-empty); an alert without a truthy explicit summary gets
only the main message, even when its derived summary is non-empty. -/
theorem c6_preliminary_summary (a : Alert) (room sndr : String)
    (color : Option String) (notify : Option Bool) (now : Int)
    (token : Option String) (sumFails msgFails : Bool) :
    (passedRateLimit a "hipchat" now).1 = true →
    (∀ s, a.summary = some s → s ≠ "" →
      (sendToHipchat a room color notify sndr now false token sumFails msgFails).2 =
        postToHipchat token sumFails
            (renderPost room sndr (nixStr s) "text" 0
              (hipchatColor (passedRateLimit a "hipchat" now).2 color))
          ++ [Action.sleep 1]
          ++ hipchatBodyActs (passedRateLimit a "hipchat" now).2 room sndr
              (hipchatColor (passedRateLimit a "hipchat" now).2 color)
              (hipchatNotify (passedRateLimit a "hipchat" now).2 notify) false
              token msgFails) ∧
    (pyTruthySummary a.summary = false →
      (sendToHipchat a room color notify sndr now false token sumFails msgFails).2 =
        hipchatBodyActs (passedRateLimit a "hipchat" now).2 room sndr
          (hipchatColor (passedRateLimit a "hipchat" now).2 color)
          (hipchatNotify (passedRateLimit a "hipchat" now).2 notify) false
          token msgFails) := by
  intro hgate
  have hsum : ((passedRateLimit a "hipchat" now).2).summary = a.summary := by
    unfold passedRateLimit
    rcases a.rate_limit with _ | r <;> simp
    split <;> [skip; split] <;> rfl
  constructor
  · intro s hs hs'
    simp [sendToHipchat, hgate, hipchatSummaryActs, hsum, hs, hs']
  · intro htruthy
    rcases hs : a.summary with _ | s
    · simp [sendToHipchat, hgate, hipchatSummaryActs, hsum, hs]
    · have hempty : s = "" := by
        rw [hs] at htruthy
        simpa [pyTruthySummary] using htruthy
      simp [sendToHipchat, hgate, hipchatSummaryActs, hsum, hs, hempty]

/-- A concrete alert with a truthy explicit summary. -/
def alertExplicit : Alert :=
  { message := "body text", summary := some "short summary", severity := 20,
    html := false, rate_limit := none, last_sent := [] }

/-- Witness for `c6_preliminary_summary`: the alert with explicit summary
`"short summary"` sends the summary post, then sleeps one second, then
sends the body. -/
theorem c6_preliminary_summary_witness :
    (sendToHipchat alertExplicit "room" none none "AlertiGator" 0 false
        (some "tok") false false).2 =
      postToHipchat (some "tok") false
          (renderPost "room" "AlertiGator" (nixStr "short summary") "text" 0
            (hipchatColor (passedRateLimit alertExplicit "hipchat" 0).2 none))
        ++ [Action.sleep 1]
        ++ hipchatBodyActs (passedRateLimit alertExplicit "hipchat" 0).2 "room"
            "AlertiGator" (hipchatColor (passedRateLimit alertExplicit "hipchat" 0).2 none)
            (hipchatNotify (passedRateLimit alertExplicit "hipchat" 0).2 none) false
            (some "tok") false :=
  (c6_preliminary_summary alertExplicit "room" "AlertiGator" none none 0
      (some "tok") false false (by decide)).1 "short summary" rfl (by decide)

/-! ### Email and PagerDuty dispatchers

The recipient lists passed to `send_to_email` and `send_to_pagerduty` are
mutated in place by the source (`lst[i] += ...` inside `_normalize` and
`_service_name_to_email`), so they are modelled as references into an
explicit heap of lists (`Store`); a dispatcher returns the updated heap.
-/

/-- One element of `_normalize`'s loop body: an address already ending in
`'@khanacademy.org'` is left alone; any other element containing `'@'`
raises `ValueError`; a bare username gets the domain appended. -/
def normalizeStep (x : String) : Except String String :=
  if pyEndsWith x "@khanacademy.org" then .ok x
  else if pyContains x '@' then
    .error ("Specify email usernames, not addresses (" ++ x ++ ")")
  else .ok (x ++ "@khanacademy.org")

/-- The characters kept by `_PAGERDUTY_ILLEGAL_CHARS.sub('', ...)`:
the complement of the regex class `[^A-Za-z0-9._-]`. -/
def pdLegal (c : Char) : Bool :=
  ('A' ≤ c && c ≤ 'Z') || ('a' ≤ c && c ≤ 'z') || ('0' ≤ c && c ≤ '9') ||
  c == '.' || c == '_' || c == '-'

/-- One element of `_service_name_to_email`'s loop body: an element
containing `'@'` raises `ValueError`; otherwise the illegal characters are
stripped, the result lowercased, and the PagerDuty domain appended. -/
def serviceNameStep (x : String) : Except String String :=
  if pyContains x '@' then
    .error ("Specify PagerDuty service names, not addresses (" ++ x ++ ")")
  else
    .ok (⟨(x.data.filter pdLegal).map Char.toLower⟩ ++ "@khan-academy.pagerduty.com")

/-- The in-place loop `for i in xrange(len(lst)): lst[i] = ...` with a
step that may raise: elements are rewritten left to right; on the first
raising element the loop stops, leaving that element and its successors
unchanged, and the error is reported alongside the (partially) mutated
list. -/
def stepsWith (f : String → Except String String) : List String → List String × Option String
  | [] => ([], none)
  | x :: xs =>
    match f x with
    | .error e => (x :: xs, some e)
    | .ok y =>
      let rest := stepsWith f xs
      (y :: rest.1, rest.2)

/-- An email recipient `_normalize` accepts without raising. -/
def emailOk (x : String) : Bool :=
  pyEndsWith x "@khanacademy.org" || !(pyContains x '@')

/-- The value `_normalize` stores back for an accepted recipient. -/
def emailNorm (x : String) : String :=
  if pyEndsWith x "@khanacademy.org" then x else x ++ "@khanacademy.org"

/-- The value `_service_name_to_email` stores back for an accepted
service name. -/
def pdNorm (x : String) : String :=
  ⟨(x.data.filter pdLegal).map Char.toLower⟩ ++ "@khan-academy.pagerduty.com"

/-- Outcome of one delivery strategy inside `_send_to_email`:
`delivered` — the call returns normally; `unavailable` — it raises one of
the exception classes that branch catches (`NameError`/`AssertionError`
for the appengine API, `NameError`/`SMTPException` for sendmail);
`failed` — it raises anything else, which escapes `_send_to_email`. -/
inductive MailOutcome where
  | delivered
  | unavailable
  | failed
deriving Repr, DecidableEq

/-- `Alert._send_to_email`: try the appengine mail API, fall back to local
sendmail when the API path is `unavailable`, and log an error when both
paths are unavailable.  Returns the trace and whether an exception escaped
(to be caught by the dispatcher's own `except Exception`). -/
def sendToEmailInner (gae smtp : MailOutcome) (payload : String) : List Action × Bool :=
  match gae with
  | .delivered => ([.netCall "gae_mail" payload], false)
  | .failed => ([.netCall "gae_mail" payload], true)
  | .unavailable =>
    match smtp with
    | .delivered => ([.netCall "smtp" payload], false)
    | .failed => ([.netCall "smtp" payload], true)
    | .unavailable => ([.logRec 40 "Failed sending email"], false)

/-- Does the delivery chain of `_send_to_email` deliver the message? -/
def mailDelivered (gae smtp : MailOutcome) : Bool :=
  match gae with
  | .delivered => true
  | .failed => false
  | .unavailable => smtp == .delivered

/-- The heap of caller-owned recipient lists; a "list object" is an index
into it. -/
abbrev Store := List (List String)

/-- `_normalize` applied through a reference (`None` is passed through, as
in the source). -/
def normalizeRef (st : Store) (r? : Option Nat) : Store × Option String :=
  match r? with
  | none => (st, none)
  | some r =>
    let res := stepsWith normalizeStep (st.getD r [])
    (st.set r res.1, res.2)

/-- The three `_normalize` calls of `send_to_email`, in source order
(usernames, cc, bcc), stopping at the first `ValueError`. -/
def emailValidationPhase (st : Store) (r : Nat) (cc bcc : Option Nat) :
    Store × Option String :=
  let s1 := normalizeRef st (some r)
  match s1.2 with
  | some e => (s1.1, some e)
  | none =>
    let s2 := normalizeRef s1.1 cc
    match s2.2 with
    | some e => (s2.1, some e)
    | none => normalizeRef s2.1 bcc

/-- Rendering of a recipient list inside the logged `email_contents`. -/
def renderList (l : List String) : String := String.intercalate ", " l

/-- The send-or-log part of `send_to_email`, after validation: log in
test mode, otherwise run the delivery chain and absorb any escaped
exception into an error log record. -/
def emailDispatchPhase (a1 : Alert) (st : Store) (r : Nat) (sndr : String)
    (testMode : Bool) (gae smtp : MailOutcome) : List Action :=
  let contents := "email to " ++ renderList (st.getD r []) ++ " (from " ++ sndr
      ++ ") (subject " ++ getSummary a1 ++ ") " ++ a1.message
  if testMode then [.logRec 20 ("alertlib: would send " ++ contents)]
  else
    let res := sendToEmailInner gae smtp contents
    if res.2 then res.1 ++ [.logRec 40 ("Failed sending " ++ contents)]
    else res.1

/-- `Alert.send_to_email`: rate-limit gate on `"email"`, in-place
normalization of usernames/cc/bcc (raising `ValueError` on a bad
recipient), then test-mode logging or the delivery chain with its
catch-all. -/
def sendToEmail (a : Alert) (st : Store) (r : Nat) (cc bcc : Option Nat)
    (sndr : String) (now : Int) (testMode : Bool) (gae smtp : MailOutcome) :
    Alert × Store × Except String (List Action) :=
  let gate := passedRateLimit a "email" now
  if !gate.1 then (gate.2, st, .ok [])
  else
    let v := emailValidationPhase st r cc bcc
    match v.2 with
    | some e => (gate.2, v.1, .error e)
    | none =>
      (gate.2, v.1, .ok (emailDispatchPhase gate.2 v.1 r sndr testMode gae smtp))

/-- The send-or-log part of `send_to_pagerduty`, after canonicalization:
log in test mode, otherwise run the delivery chain and absorb any escaped
exception into an error log record. -/
def pagerdutyDispatchPhase (a1 : Alert) (st1 : Store) (r : Nat)
    (testMode : Bool) (gae smtp : MailOutcome) : List Action :=
  let contents := "pagerduty email to " ++ renderList (st1.getD r [])
      ++ " (subject " ++ getSummary a1 ++ ") " ++ a1.message
  if testMode then [.logRec 20 ("alertlib: would send " ++ contents)]
  else
    let inner := sendToEmailInner gae smtp contents
    if inner.2 then inner.1 ++ [.logRec 40 ("Failed sending " ++ contents)]
    else inner.1

/-- `Alert.send_to_pagerduty`: rate-limit gate on `"pagerduty"`, in-place
canonicalization of the service names (raising `ValueError` on a name
containing `'@'`), then test-mode logging or the delivery chain with its
catch-all. -/
def sendToPagerduty (a : Alert) (st : Store) (r : Nat) (now : Int)
    (testMode : Bool) (gae smtp : MailOutcome) :
    Alert × Store × Except String (List Action) :=
  let gate := passedRateLimit a "pagerduty" now
  if !gate.1 then (gate.2, st, .ok [])
  else
    let res := stepsWith serviceNameStep (st.getD r [])
    let st1 := st.set r res.1
    match res.2 with
    | some e => (gate.2, st1, .error e)
    | none =>
      (gate.2, st1, .ok (pagerdutyDispatchPhase gate.2 st1 r testMode gae smtp))

/-- Did the dispatch call raise to its caller? -/
def raisesError (res : Alert × Store × Except String (List Action)) : Bool :=
  match res.2.2 with
  | .error _ => true
  | .ok _ => false

/-! ### Helper lemmas about normalization -/

theorem pyContains_at_of_pyEndsWith (x : String)
    (h : pyEndsWith x "@khanacademy.org" = true) : pyContains x '@' = true := by
  unfold pyEndsWith at h
  rw [List.isSuffixOf_iff_suffix] at h
  obtain ⟨t, ht⟩ := h
  unfold pyContains
  rw [List.any_eq_true]
  refine ⟨'@', ?_, rfl⟩
  rw [← ht]
  exact List.mem_append_right t (by decide)

theorem normalizeStep_ok (x : String) (h : emailOk x = true) :
    normalizeStep x = .ok (emailNorm x) := by
  unfold emailOk at h
  unfold normalizeStep emailNorm
  by_cases he : pyEndsWith x "@khanacademy.org" = true
  · simp [he]
  · simp only [he, Bool.false_or] at h
    simp only [Bool.not_eq_true'] at h
    simp [he, h]

theorem normalizeStep_error (x : String) (h : emailOk x = false) :
    normalizeStep x = .error ("Specify email usernames, not addresses (" ++ x ++ ")") := by
  unfold emailOk at h
  simp only [Bool.or_eq_false_iff, Bool.not_eq_false'] at h
  simp [normalizeStep, h.1, h.2]

theorem emailOk_emailNorm (x : String) : emailOk (emailNorm x) = true := by
  unfold emailNorm
  by_cases he : pyEndsWith x "@khanacademy.org" = true
  · simp [he, emailOk]
  · simp only [he, if_false, ite_false]
    have hsuf : pyEndsWith (x ++ "@khanacademy.org") "@khanacademy.org" = true := by
      unfold pyEndsWith
      rw [List.isSuffixOf_iff_suffix, String.data_append]
      exact ⟨x.data, rfl⟩
    simp [emailOk, hsuf]

theorem serviceNameStep_ok (x : String) (h : pyContains x '@' = false) :
    serviceNameStep x = .ok (pdNorm x) := by
  simp [serviceNameStep, pdNorm, h]

theorem stepsWith_map (f : String → Except String String) (g : String → String)
    (l : List String) (h : ∀ x ∈ l, f x = .ok (g x)) :
    stepsWith f l = (l.map g, none) := by
  induction l with
  | nil => rfl
  | cons x xs ih =>
    have hx := h x (List.mem_cons_self x xs)
    have hrest := ih (fun y hy => h y (List.mem_cons_of_mem _ hy))
    simp [stepsWith, hx, hrest]

theorem stepsWith_isSome_iff (f : String → Except String String) (l : List String) :
    ((stepsWith f l).2).isSome = true ↔ ∃ x ∈ l, ∃ e, f x = Except.error e := by
  induction l with
  | nil => simp [stepsWith]
  | cons x xs ih =>
    cases hf : f x with
    | error e =>
      simp only [stepsWith, hf, Option.isSome_some, true_iff]
      exact ⟨x, List.mem_cons_self x xs, e, hf⟩
    | ok y =>
      simp only [stepsWith, hf]
      rw [ih]
      constructor
      · rintro ⟨z, hz, e, he⟩
        exact ⟨z, List.mem_cons_of_mem _ hz, e, he⟩
      · rintro ⟨z, hz, e, he⟩
        rcases List.mem_cons.mp hz with hzx | hz'
        · subst hzx
          rw [hf] at he
          cases he
        · exact ⟨z, hz', e, he⟩

/-! ### Claim C5 (email recipient validation) -/

/-- A plain alert with no rate limit. -/
def alertPlain : Alert :=
  { message := "m", summary := none, severity := 20, html := false,
    rate_limit := none, last_sent := [] }

/-- C5 counterexample: the recipient `"foo@khanacademy.org"` contains an
`'@'` character, yet `send_to_email` does not raise: `_normalize` only
rejects `'@'`-containing recipients that do not already end with
`'@khanacademy.org'`. -/
theorem c5_counterexample :
    pyContains "foo@khanacademy.org" '@' = true ∧
    raisesError (sendToEmail alertPlain [["foo@khanacademy.org"]] 0 none none
      "" 0 true .delivered .delivered) = false := by
  decide

/-- C5 (amended): a recipient containing `'@'` that does not already end
with `'@khanacademy.org'` makes the call raise a validation error; a
recipient already ending in `'@khanacademy.org'` passes through unchanged
and every bare username has the fixed domain appended; `["foo"]`
normalizes to `["foo@khanacademy.org"]`. -/
theorem c5_email_validation :
    (∀ l : List String, (∀ x ∈ l, emailOk x = true) →
      stepsWith normalizeStep l = (l.map emailNorm, none)) ∧
    (∀ x : String, pyContains x '@' = false →
      emailNorm x = x ++ "@khanacademy.org") ∧
    stepsWith normalizeStep ["foo"] = (["foo@khanacademy.org"], none) ∧
    (∀ (a : Alert) (st : Store) (r : Nat) (sndr : String) (now : Int)
        (tm : Bool) (gae smtp : MailOutcome),
      (passedRateLimit a "email" now).1 = true →
      (∃ x ∈ st.getD r [], emailOk x = false) →
      raisesError (sendToEmail a st r none none sndr now tm gae smtp) = true) := by
  refine ⟨fun l h => stepsWith_map _ _ l (fun x hx => normalizeStep_ok x (h x hx)),
    fun x h => ?_, by decide, fun a st r sndr now tm gae smtp hgate hbad => ?_⟩
  · have hends : pyEndsWith x "@khanacademy.org" = false := by
      by_contra hc
      simp only [Bool.not_eq_false] at hc
      rw [pyContains_at_of_pyEndsWith x hc] at h
      cases h
    simp [emailNorm, hends]
  · obtain ⟨x, hx, hbadx⟩ := hbad
    have hsome : ((stepsWith normalizeStep (st.getD r [])).2).isSome = true := by
      rw [stepsWith_isSome_iff]
      exact ⟨x, hx, _, normalizeStep_error x hbadx⟩
    obtain ⟨e, he⟩ := Option.isSome_iff_exists.mp hsome
    rw [List.getD_eq_getElem?_getD] at he
    simp [sendToEmail, hgate, emailValidationPhase, normalizeRef, he, raisesError]

/-- Witness for `c5_email_validation`: a recipient `"a@b"` (contains `'@'`
and does not end in the fixed domain) makes the call raise. -/
theorem c5_email_validation_witness :
    raisesError (sendToEmail alertPlain [["a@b"]] 0 none none "s" 0 false
      .delivered .delivered) = true :=
  c5_email_validation.2.2.2 alertPlain [["a@b"]] 0 "s" 0 false
    .delivered .delivered (by decide) ⟨"a@b", by decide, by decide⟩

/-! ### Claim C8 (paging service-name canonicalization) -/

/-- C8: a service name containing `'@'` raises a validation error; any
other name has every character outside letters, digits, `'.'`, `'_'`,
`'-'` stripped, is lowercased, and gets the fixed paging domain appended;
`"API-Team!!"` yields `"api-team@khan-academy.pagerduty.com"`. -/
theorem c8_paging_canonicalization :
    (∀ x : String, pyContains x '@' = true →
      serviceNameStep x =
        .error ("Specify PagerDuty service names, not addresses (" ++ x ++ ")")) ∧
    (∀ x : String, pyContains x '@' = false →
      serviceNameStep x = .ok (pdNorm x)) ∧
    pdNorm "API-Team!!" = "api-team@khan-academy.pagerduty.com" ∧
    (∀ (a : Alert) (st : Store) (r : Nat) (now : Int) (tm : Bool)
        (gae smtp : MailOutcome),
      (passedRateLimit a "pagerduty" now).1 = true →
      (∃ x ∈ st.getD r [], pyContains x '@' = true) →
      raisesError (sendToPagerduty a st r now tm gae smtp) = true) := by
  refine ⟨fun x h => by simp [serviceNameStep, h], fun x h => serviceNameStep_ok x h,
    by decide, fun a st r now tm gae smtp hgate hbad => ?_⟩
  obtain ⟨x, hx, hbadx⟩ := hbad
  have hsome : ((stepsWith serviceNameStep (st.getD r [])).2).isSome = true := by
    rw [stepsWith_isSome_iff]
    exact ⟨x, hx, "Specify PagerDuty service names, not addresses (" ++ x ++ ")",
      by simp [serviceNameStep, hbadx]⟩
  obtain ⟨e, he⟩ := Option.isSome_iff_exists.mp hsome
  rw [List.getD_eq_getElem?_getD] at he
  simp [sendToPagerduty, hgate, he, raisesError]

/-- Witness for `c8_paging_canonicalization`: applied to the concrete name
`"API-Team!!"` (no `'@'`), the conversion yields exactly
`"api-team@khan-academy.pagerduty.com"`. -/
theorem c8_paging_canonicalization_witness :
    serviceNameStep "API-Team!!" =
      .ok "api-team@khan-academy.pagerduty.com" := by
  rw [c8_paging_canonicalization.2.1 "API-Team!!" (by decide),
    c8_paging_canonicalization.2.2.1]

/-! ### Claim C10 (in-place mutation of the caller's list) -/

/-- An alert whose `"email"` rate-limit window has not yet elapsed at
`now = 60`. -/
def alertLimited : Alert :=
  { message := "m", summary := none, severity := 20, html := false,
    rate_limit := some 100, last_sent := [("email", 50)] }

/-- C10 counterexample: a rate-limited `send_to_email` call returns
normally but performs no normalization at all, so the caller's list still
holds `["foo"]`, not the `["foo@khanacademy.org"]` the claim requires
after every call. -/
theorem c10_counterexample :
    raisesError (sendToEmail alertLimited [["foo"]] 0 none none "s" 60 false
      .delivered .delivered) = false ∧
    (sendToEmail alertLimited [["foo"]] 0 none none "s" 60 false
      .delivered .delivered).2.1 = [["foo"]] ∧
    emailNorm "foo" = "foo@khanacademy.org" ∧
    ("foo" : String) ≠ "foo@khanacademy.org" := by
  decide

/-- C10 (amended): for every `send_to_email` / `send_to_pagerduty` call
that passes the rate-limit check and whose list validates, the caller's
own list object is mutated in place — after the call the referenced list
holds the normalized full addresses (domain appended resp. canonicalized
paging address), while every other list in the heap is untouched — and
the call returns without raising. -/
theorem c10_in_place_mutation :
    (∀ (a : Alert) (st : Store) (r : Nat) (sndr : String) (now : Int)
        (tm : Bool) (gae smtp : MailOutcome),
      r < st.length →
      (passedRateLimit a "email" now).1 = true →
      (∀ x ∈ st.getD r [], emailOk x = true) →
      (sendToEmail a st r none none sndr now tm gae smtp).2.1.getD r [] =
          (st.getD r []).map emailNorm ∧
      (∀ j, j ≠ r →
        (sendToEmail a st r none none sndr now tm gae smtp).2.1.getD j [] =
          st.getD j []) ∧
      raisesError (sendToEmail a st r none none sndr now tm gae smtp) = false) ∧
    (∀ (a : Alert) (st : Store) (r : Nat) (now : Int) (tm : Bool)
        (gae smtp : MailOutcome),
      r < st.length →
      (passedRateLimit a "pagerduty" now).1 = true →
      (∀ x ∈ st.getD r [], pyContains x '@' = false) →
      (sendToPagerduty a st r now tm gae smtp).2.1.getD r [] =
          (st.getD r []).map pdNorm ∧
      (∀ j, j ≠ r →
        (sendToPagerduty a st r now tm gae smtp).2.1.getD j [] = st.getD j []) ∧
      raisesError (sendToPagerduty a st r now tm gae smtp) = false) := by
  constructor
  · intro a st r sndr now tm gae smtp hr hgate hvalid
    have hsteps : stepsWith normalizeStep (st.getD r []) =
        ((st.getD r []).map emailNorm, none) :=
      stepsWith_map _ _ _ (fun x hx => normalizeStep_ok x (hvalid x hx))
    rw [List.getD_eq_getElem?_getD] at hsteps
    have hstore : (sendToEmail a st r none none sndr now tm gae smtp).2.1 =
        st.set r ((st[r]?.getD []).map emailNorm) := by
      simp [sendToEmail, hgate, emailValidationPhase, normalizeRef, hsteps]
    refine ⟨?_, fun j hj => ?_, ?_⟩
    · rw [hstore]
      simp [List.getD_eq_getElem?_getD, List.getElem?_set_self (by simpa using hr)]
    · rw [hstore]
      simp [List.getD_eq_getElem?_getD, List.getElem?_set_ne (Ne.symm hj)]
    · simp [sendToEmail, hgate, emailValidationPhase, normalizeRef, hsteps, raisesError]
  · intro a st r now tm gae smtp hr hgate hvalid
    have hsteps : stepsWith serviceNameStep (st.getD r []) =
        ((st.getD r []).map pdNorm, none) :=
      stepsWith_map _ _ _ (fun x hx => serviceNameStep_ok x (hvalid x hx))
    rw [List.getD_eq_getElem?_getD] at hsteps
    have hstore : (sendToPagerduty a st r now tm gae smtp).2.1 =
        st.set r ((st[r]?.getD []).map pdNorm) := by
      simp [sendToPagerduty, hgate, hsteps]
    refine ⟨?_, fun j hj => ?_, ?_⟩
    · rw [hstore]
      simp [List.getD_eq_getElem?_getD, List.getElem?_set_self (by simpa using hr)]
    · rw [hstore]
      simp [List.getD_eq_getElem?_getD, List.getElem?_set_ne (Ne.symm hj)]
    · simp [sendToPagerduty, hgate, hsteps, raisesError]

/-- Witness for `c10_in_place_mutation`: after a non-rate-limited call on
the heap `[["foo"]]`, the caller's list holds `["foo@khanacademy.org"]`. -/
theorem c10_in_place_mutation_witness :
    (sendToEmail alertPlain [["foo"]] 0 none none "s" 0 false
      .delivered .delivered).2.1.getD 0 [] = ["foo@khanacademy.org"] :=
  ((c10_in_place_mutation.1 alertPlain [["foo"]] 0 "s" 0 false
    .delivered .delivered (by decide) (by decide) (by decide)).1).trans (by decide)

/-! ### Logs and Graphite dispatchers -/

/-- `Alert.send_to_logs`: gate on `"logs"`, then always
`logging.log(self.severity, self.message)`; outside test mode additionally
a syslog write using the §4.2 mapping, silently skipped when the `syslog`
module is absent (`NameError`) or the table lookup fails (`KeyError`). -/
def sendToLogs (a : Alert) (now : Int) (testMode syslogAvailable : Bool) :
    Alert × List Action :=
  let gate := passedRateLimit a "logs" now
  if !gate.1 then (gate.2, [])
  else
    let secondary : List Action :=
      if testMode then []
      else if syslogAvailable then
        match mappedSeverity LOG_TO_SYSLOG gate.2.severity with
        | some p => [.osCall "syslog" p gate.2.message]
        | none => []
      else []
    (gate.2, Action.logRec gate.2.severity gate.2.message :: secondary)

/-- Python `int(value)` for a rational `value`: truncation toward zero. -/
def pyInt (v : Rat) : Int :=
  if 0 ≤ v then v.floor else -((-v).floor)

/-- The decimal digits of a fraction `num/den < 1`, by long division
(`fuel` bounds the number of digits; Python floats are dyadic rationals,
whose expansions terminate). -/
def fracDigits : Nat → Nat → Nat → List Char
  | 0, _, _ => []
  | fuel + 1, num, den =>
    if num = 0 then []
    else
      let n10 := num * 10
      Nat.digitChar (n10 / den) :: fracDigits fuel (n10 % den) den

/-- `'%s' % value` for a non-negative non-integer float value: integer
part, `'.'`, fractional digits (the fractional numerator is computed
directly as `num - floor * den`, whose long division by `den` yields the
decimal expansion). -/
def floatReprNN (v : Rat) : String :=
  let ipart := v.floor
  let fracNum := (v.num - ipart * (v.den : Int)).toNat
  toString ipart.toNat ++ "." ++ ⟨fracDigits 64 fracNum v.den⟩

/-- `'%s' % value` for a non-integer float value. -/
def floatRepr (v : Rat) : String :=
  if v < 0 then "-" ++ floatReprNN (-v) else floatReprNN v

/-- The value field of the graphite payload, after
`if int(value) == value: value = int(value)`: an integer-valued float is
formatted as an integer literal, anything else keeps its decimal part. -/
def graphiteValueStr (v : Rat) : String :=
  if (pyInt v : Rat) = v then toString (pyInt v) else floatRepr v

/-- `Alert.send_to_graphite`: gate on `"graphite"`, integer conversion of
the value, then test-mode logging, a warning when no API key is
configured, or the socket send
(`'%s.%s %s\n' % (key, statistic, value)`) with its catch-all. -/
def sendToGraphite (a : Alert) (statistic : String) (value : Rat) (now : Int)
    (testMode : Bool) (apiKey : Option String) (sendFails : Bool) :
    Alert × List Action :=
  let gate := passedRateLimit a "graphite" now
  if !gate.1 then (gate.2, [])
  else
    let vstr := graphiteValueStr value
    if testMode then
      (gate.2, [.logRec 20 ("alertlib: would send to graphite: " ++ statistic
        ++ " " ++ vstr)])
    else
      match apiKey with
      | none =>
        (gate.2, [.logRec 30 ("Not sending to graphite; no API key found: "
          ++ statistic ++ " " ++ vstr)])
      | some key =>
        let payload := key ++ "." ++ statistic ++ " " ++ vstr ++ "\n"
        if sendFails then
          (gate.2, [.netCall "graphite" payload,
            .logRec 40 "Failed sending to graphite"])
        else (gate.2, [.netCall "graphite" payload])

/-! ### Claim C9 (graphite integer formatting) -/

/-- The rational `25/2`, in normalized form (the exact value of the
Python float `12.5`). -/
def q252 : Rat := ⟨25, 2, by decide, by norm_num⟩

theorem q252_eq : (12.5 : Rat) = q252 := by
  rw [← Rat.num_div_den q252]
  norm_num [q252]

theorem rat12_eq : (12.0 : Rat) = (12 : Rat) := by norm_num

theorem pyInt_den_one (v : Rat) (hv : v.den = 1) :
    (pyInt v : Rat) = v ∧ pyInt v = v.num := by
  have hv' : (v.num : Rat) = v := (Rat.den_eq_one_iff v).mp hv
  have hneg : (-v).den = 1 := by
    rw [Rat.neg_den]
    exact hv
  have hpy : pyInt v = v.num := by
    unfold pyInt
    by_cases h0 : (0 : Rat) ≤ v
    · rw [if_pos h0]
      simp [Rat.floor, hv]
    · rw [if_neg h0]
      simp [Rat.floor, hneg, Rat.neg_num]
  exact ⟨by rw [hpy, hv'], hpy⟩

/-- C9: a value numerically equal to an integer is put on the wire as an
integer literal (`12.0` is transmitted as `12`), and any other value keeps
its decimal part (`12.5` is transmitted as `12.5`); concretely, the
payload lines are `"KEY.myapp.stats 12\n"` and `"KEY.myapp.stats 12.5\n"`. -/
theorem c9_graphite_integer_format :
    (∀ v : Rat, v.den = 1 → graphiteValueStr v = toString v.num) ∧
    (∀ v : Rat, v.den ≠ 1 → graphiteValueStr v = floatRepr v) ∧
    graphiteValueStr (12.0 : Rat) = "12" ∧
    graphiteValueStr (12.5 : Rat) = "12.5" ∧
    (sendToGraphite alertPlain "myapp.stats" (12.0 : Rat) 0 false (some "KEY")
      false).2 = [Action.netCall "graphite" "KEY.myapp.stats 12\n"] ∧
    (sendToGraphite alertPlain "myapp.stats" (12.5 : Rat) 0 false (some "KEY")
      false).2 = [Action.netCall "graphite" "KEY.myapp.stats 12.5\n"] := by
  refine ⟨fun v hv => ?_, fun v hv => ?_, ?_, ?_, ?_, ?_⟩
  · obtain ⟨h1, h2⟩ := pyInt_den_one v hv
    rw [graphiteValueStr, if_pos h1, h2]
  · rw [graphiteValueStr, if_neg ?_]
    intro hc
    have h := congrArg Rat.den hc
    rw [Rat.den_intCast] at h
    exact hv h.symm
  · rw [rat12_eq]
    decide
  · rw [q252_eq]
    decide
  · rw [rat12_eq]
    decide
  · rw [q252_eq]
    decide

/-- Witness for `c9_graphite_integer_format`: the integer-valued rational
`7` is formatted as the integer literal `"7"`. -/
theorem c9_graphite_integer_format_witness :
    graphiteValueStr (7 : Rat) = "7" :=
  (c9_graphite_integer_format.1 (7 : Rat) (by decide)).trans rfl

/-! ### Helper lemmas for the dispatcher-wide claims -/

/-- The actions of a dispatch result that did not raise. -/
def okActs (res : Alert × Store × Except String (List Action)) : List Action :=
  match res.2.2 with
  | .ok acts => acts
  | .error _ => []

/-- Every string in every list of the heap satisfies `p`. -/
def storeAllOk (p : String → Bool) (st : Store) : Prop :=
  ∀ l ∈ st, ∀ x ∈ l, p x = true

theorem passedRateLimit_fields (a : Alert) (s : String) (now : Int) :
    (passedRateLimit a s now).2.message = a.message ∧
    (passedRateLimit a s now).2.summary = a.summary ∧
    (passedRateLimit a s now).2.severity = a.severity ∧
    (passedRateLimit a s now).2.html = a.html := by
  unfold passedRateLimit
  rcases a.rate_limit with _ | r <;> simp
  split <;> [skip; split] <;> exact ⟨rfl, rfl, rfl, rfl⟩

theorem storeAllOk_getD (p : String → Bool) (st : Store)
    (h : storeAllOk p st) (r : Nat) : ∀ x ∈ st.getD r [], p x = true := by
  intro x hx
  rw [List.getD_eq_getElem?_getD] at hx
  cases hg : st[r]? with
  | none =>
    rw [hg] at hx
    cases hx
  | some l =>
    rw [hg] at hx
    exact h l (List.getElem?_mem hg) x hx

theorem storeAllOk_set (p : String → Bool) (st : Store) (h : storeAllOk p st)
    (r : Nat) (l' : List String) (hl' : ∀ x ∈ l', p x = true) :
    storeAllOk p (st.set r l') := by
  intro l hl x hx
  rcases List.mem_or_eq_of_mem_set hl with hmem | heq
  · exact h l hmem x hx
  · subst heq
    exact hl' x hx

theorem normalizeRef_of_storeOk (st : Store) (r? : Option Nat)
    (h : storeAllOk emailOk st) :
    (normalizeRef st r?).2 = none ∧ storeAllOk emailOk (normalizeRef st r?).1 := by
  cases r? with
  | none => exact ⟨rfl, h⟩
  | some r =>
    have hl := storeAllOk_getD emailOk st h r
    have hsteps := stepsWith_map normalizeStep emailNorm _
      (fun x hx => normalizeStep_ok x (hl x hx))
    have hmapped : ∀ x ∈ (st.getD r []).map emailNorm, emailOk x = true := by
      intro x hx
      obtain ⟨y, _, rfl⟩ := List.mem_map.mp hx
      exact emailOk_emailNorm y
    constructor
    · simp only [normalizeRef]
      rw [hsteps]
    · simp only [normalizeRef]
      rw [hsteps]
      exact storeAllOk_set emailOk st h r _ hmapped

theorem emailValidationPhase_none (st : Store) (r : Nat) (cc bcc : Option Nat)
    (h : storeAllOk emailOk st) : (emailValidationPhase st r cc bcc).2 = none := by
  obtain ⟨h1, h1'⟩ := normalizeRef_of_storeOk st (some r) h
  obtain ⟨h2, h2'⟩ := normalizeRef_of_storeOk _ cc h1'
  obtain ⟨h3, _⟩ := normalizeRef_of_storeOk _ bcc h2'
  simp [emailValidationPhase, h1, h2, h3]

theorem postToHipchat_fail_log (token payload : String) :
    Action.logRec 40 ("Failed sending " ++ payload ++ " to hipchat") ∈
      postToHipchat (some token) true payload := by
  simp [postToHipchat]

theorem hipchatBodyActs_fail_log (a : Alert) (room sndr col : String)
    (ntf : Bool) (token : String) :
    ∃ m, Action.logRec 40 m ∈
      hipchatBodyActs a room sndr col ntf false (some token) true := by
  refine ⟨"Failed sending " ++
    renderPost room sndr
      (if a.html then (⟨a.message.data.take 9000⟩ : String)
       else nixStr ⟨a.message.data.take 9000⟩)
      (if a.html then "html" else "text") (if ntf then 1 else 0) col ++
    " to hipchat", ?_⟩
  simp only [hipchatBodyActs, Bool.false_eq_true, if_false, ite_false]
  exact postToHipchat_fail_log token _

/-! ### Claim C7 (simulation mode) -/

/-- C7 counterexample: in test mode, a chat dispatch that passes its
rate-limit check on an alert with a truthy explicit summary produces two
log records (one for the preliminary summary, one for the body), not
exactly one as the claim requires. -/
theorem c7_counterexample :
    (passedRateLimit alertExplicit "hipchat" 0).1 = true ∧
    countLogs (sendToHipchat alertExplicit "room" none none "A" 0 true none
      false false).2 = 2 := by
  decide

/-- C7 (amended): with simulation mode enabled, every dispatcher (chat,
email, paging, logs, metrics) whose rate-limit check passes performs no
network or OS call and no sleep — every action in its trace is a process
log record — and each such dispatch produces exactly one log record
describing the intended effect, except chat on an alert with a truthy
explicit summary, which produces two (one for the preliminary summary,
one for the body). -/
theorem c7_simulation_mode :
    (∀ (a : Alert) (room : String) (color : Option String)
        (notify : Option Bool) (sndr : String) (now : Int)
        (token : Option String) (sumF msgF : Bool),
      (passedRateLimit a "hipchat" now).1 = true →
      allLogs (sendToHipchat a room color notify sndr now true token sumF msgF).2 = true ∧
      countLogs (sendToHipchat a room color notify sndr now true token sumF msgF).2 =
        (if pyTruthySummary a.summary then 2 else 1)) ∧
    (∀ (a : Alert) (st : Store) (r : Nat) (sndr : String) (now : Int)
        (gae smtp : MailOutcome),
      (passedRateLimit a "email" now).1 = true →
      (∀ x ∈ st.getD r [], emailOk x = true) →
      raisesError (sendToEmail a st r none none sndr now true gae smtp) = false ∧
      allLogs (okActs (sendToEmail a st r none none sndr now true gae smtp)) = true ∧
      countLogs (okActs (sendToEmail a st r none none sndr now true gae smtp)) = 1) ∧
    (∀ (a : Alert) (st : Store) (r : Nat) (now : Int) (gae smtp : MailOutcome),
      (passedRateLimit a "pagerduty" now).1 = true →
      (∀ x ∈ st.getD r [], pyContains x '@' = false) →
      raisesError (sendToPagerduty a st r now true gae smtp) = false ∧
      allLogs (okActs (sendToPagerduty a st r now true gae smtp)) = true ∧
      countLogs (okActs (sendToPagerduty a st r now true gae smtp)) = 1) ∧
    (∀ (a : Alert) (now : Int) (syslogAvailable : Bool),
      (passedRateLimit a "logs" now).1 = true →
      allLogs (sendToLogs a now true syslogAvailable).2 = true ∧
      countLogs (sendToLogs a now true syslogAvailable).2 = 1) ∧
    (∀ (a : Alert) (stat : String) (v : Rat) (now : Int)
        (apiKey : Option String) (sendFails : Bool),
      (passedRateLimit a "graphite" now).1 = true →
      allLogs (sendToGraphite a stat v now true apiKey sendFails).2 = true ∧
      countLogs (sendToGraphite a stat v now true apiKey sendFails).2 = 1) := by
  refine ⟨fun a room color notify sndr now token sumF msgF hgate => ?_,
    fun a st r sndr now gae smtp hgate hvalid => ?_,
    fun a st r now gae smtp hgate hvalid => ?_,
    fun a now syslogAvailable hgate => ?_,
    fun a stat v now apiKey sendFails hgate => ?_⟩
  · have hf := passedRateLimit_fields a "hipchat" now
    rcases hs : a.summary with _ | s
    · simp [sendToHipchat, hgate, hipchatSummaryActs, hipchatBodyActs, hf.2.1, hs,
        allLogs, countLogs, pyTruthySummary, Action.isLog]
    · by_cases hse : s = ""
      · simp [sendToHipchat, hgate, hipchatSummaryActs, hipchatBodyActs, hf.2.1, hs,
          hse, allLogs, countLogs, pyTruthySummary, Action.isLog]
      · simp [sendToHipchat, hgate, hipchatSummaryActs, hipchatBodyActs, hf.2.1, hs,
          hse, allLogs, countLogs, pyTruthySummary, Action.isLog]
  · have hsteps := stepsWith_map normalizeStep emailNorm _
      (fun x hx => normalizeStep_ok x (hvalid x hx))
    rw [List.getD_eq_getElem?_getD] at hsteps
    refine ⟨?_, ?_, ?_⟩ <;>
      simp [sendToEmail, hgate, emailValidationPhase, normalizeRef, hsteps,
        raisesError, okActs, emailDispatchPhase, allLogs, countLogs, Action.isLog]
  · have hsteps := stepsWith_map serviceNameStep pdNorm _
      (fun x hx => serviceNameStep_ok x (hvalid x hx))
    rw [List.getD_eq_getElem?_getD] at hsteps
    refine ⟨?_, ?_, ?_⟩ <;>
      simp [sendToPagerduty, hgate, hsteps, raisesError, okActs,
        pagerdutyDispatchPhase, allLogs, countLogs, Action.isLog]
  · simp [sendToLogs, hgate, allLogs, countLogs, Action.isLog]
  · simp [sendToGraphite, hgate, allLogs, countLogs, Action.isLog]

/-- Witness for `c7_simulation_mode`: a concrete test-mode chat dispatch
on an alert without an explicit summary performs only log actions, exactly
one of them. -/
theorem c7_simulation_mode_witness :
    allLogs (sendToHipchat alertPlain "room" none none "A" 0 true (some "t")
      false false).2 = true ∧
    countLogs (sendToHipchat alertPlain "room" none none "A" 0 true (some "t")
      false false).2 = 1 := by
  have h := c7_simulation_mode.1 alertPlain "room" none none "A" 0 (some "t")
    false false (by decide)
  exact ⟨h.1, h.2.trans (by decide)⟩

/-! ### Claim C2 (error propagation policy) -/

/-- C2: only validation failures (a malformed email recipient or paging
service name) are raised to the caller: whether `send_to_email` /
`send_to_pagerduty` raise does not depend on the transport outcomes, valid
inputs never raise whatever the transport does, every failed delivery is
absorbed and leaves an error log record in the trace, and the dispatcher
still returns the alert for chaining. -/
theorem c2_error_propagation :
    (∀ (a : Alert) (st : Store) (r : Nat) (cc bcc : Option Nat)
        (sndr : String) (now : Int) (tm : Bool) (gae smtp : MailOutcome),
      raisesError (sendToEmail a st r cc bcc sndr now tm gae smtp) =
        raisesError (sendToEmail a st r cc bcc sndr now tm .delivered .delivered)) ∧
    (∀ (a : Alert) (st : Store) (r : Nat) (now : Int) (tm : Bool)
        (gae smtp : MailOutcome),
      raisesError (sendToPagerduty a st r now tm gae smtp) =
        raisesError (sendToPagerduty a st r now tm .delivered .delivered)) ∧
    (∀ (a : Alert) (st : Store) (r : Nat) (cc bcc : Option Nat)
        (sndr : String) (now : Int) (tm : Bool) (gae smtp : MailOutcome),
      storeAllOk emailOk st →
      raisesError (sendToEmail a st r cc bcc sndr now tm gae smtp) = false) ∧
    (∀ (a : Alert) (st : Store) (r : Nat) (now : Int) (tm : Bool)
        (gae smtp : MailOutcome),
      (∀ x ∈ st.getD r [], pyContains x '@' = false) →
      raisesError (sendToPagerduty a st r now tm gae smtp) = false) ∧
    (∀ (a : Alert) (st : Store) (r : Nat) (sndr : String) (now : Int)
        (gae smtp : MailOutcome),
      (passedRateLimit a "email" now).1 = true →
      (∀ x ∈ st.getD r [], emailOk x = true) →
      mailDelivered gae smtp = false →
      ∃ m, Action.logRec 40 m ∈
        okActs (sendToEmail a st r none none sndr now false gae smtp)) ∧
    (∀ (a : Alert) (st : Store) (r : Nat) (cc bcc : Option Nat)
        (sndr : String) (now : Int) (tm : Bool) (gae smtp : MailOutcome),
      (sendToEmail a st r cc bcc sndr now tm gae smtp).1 =
        (passedRateLimit a "email" now).2) ∧
    (∀ (a : Alert) (room : String) (color : Option String)
        (notify : Option Bool) (sndr : String) (now : Int) (token : String)
        (sumF : Bool),
      (passedRateLimit a "hipchat" now).1 = true →
      ∃ m, Action.logRec 40 m ∈
        (sendToHipchat a room color notify sndr now false (some token) sumF true).2) ∧
    (∀ (a : Alert) (stat : String) (v : Rat) (now : Int) (key : String),
      (passedRateLimit a "graphite" now).1 = true →
      ∃ m, Action.logRec 40 m ∈
        (sendToGraphite a stat v now false (some key) true).2) := by
  refine ⟨fun a st r cc bcc sndr now tm gae smtp => ?_,
    fun a st r now tm gae smtp => ?_,
    fun a st r cc bcc sndr now tm gae smtp hst => ?_,
    fun a st r now tm gae smtp hvalid => ?_,
    fun a st r sndr now gae smtp hgate hvalid hdel => ?_,
    fun a st r cc bcc sndr now tm gae smtp => ?_,
    fun a room color notify sndr now token sumF hgate => ?_,
    fun a stat v now key hgate => ?_⟩
  · by_cases hgate : (passedRateLimit a "email" now).1 <;>
      cases hv : (emailValidationPhase st r cc bcc).2 <;>
        simp [sendToEmail, raisesError, hgate, hv]
  · by_cases hgate : (passedRateLimit a "pagerduty" now).1
    · cases hv : (stepsWith serviceNameStep (st[r]?.getD [])).2 <;>
        simp [sendToPagerduty, raisesError, hgate, hv]
    · simp [sendToPagerduty, raisesError, hgate]
  · by_cases hgate : (passedRateLimit a "email" now).1
    · have hv := emailValidationPhase_none st r cc bcc hst
      simp [sendToEmail, raisesError, hgate, hv]
    · simp [sendToEmail, raisesError, hgate]
  · by_cases hgate : (passedRateLimit a "pagerduty" now).1
    · have hsteps := stepsWith_map serviceNameStep pdNorm _
        (fun x hx => serviceNameStep_ok x (hvalid x hx))
      rw [List.getD_eq_getElem?_getD] at hsteps
      simp [sendToPagerduty, raisesError, hgate, hsteps]
    · simp [sendToPagerduty, raisesError, hgate]
  · have hsteps := stepsWith_map normalizeStep emailNorm _
      (fun x hx => normalizeStep_ok x (hvalid x hx))
    rw [List.getD_eq_getElem?_getD] at hsteps
    cases gae <;> cases smtp <;> simp [mailDelivered] at hdel <;>
      simp [sendToEmail, hgate, emailValidationPhase, normalizeRef, hsteps,
        okActs, emailDispatchPhase, sendToEmailInner]
  · by_cases hgate : (passedRateLimit a "email" now).1 <;>
      cases hv : (emailValidationPhase st r cc bcc).2 <;>
        simp [sendToEmail, hgate, hv]
  · obtain ⟨m, hm⟩ := hipchatBodyActs_fail_log (passedRateLimit a "hipchat" now).2
      room sndr (hipchatColor (passedRateLimit a "hipchat" now).2 color)
      (hipchatNotify (passedRateLimit a "hipchat" now).2 notify) token
    refine ⟨m, ?_⟩
    simp only [sendToHipchat, hgate, Bool.not_true, Bool.false_eq_true, if_false,
      ite_false]
    exact List.mem_append_right _ hm
  · simp [sendToGraphite, hgate]

/-- Witness for `c2_error_propagation`: a concrete failing graphite send
outside test mode leaves an error log record in the trace instead of
raising. -/
theorem c2_error_propagation_witness :
    ∃ m, Action.logRec 40 m ∈
      (sendToGraphite alertPlain "stat" 1 0 false (some "K") true).2 :=
  c2_error_propagation.2.2.2.2.2.2.2 alertPlain "stat" 1 0 "K" (by decide)

end Alertlib
